import Mathlib

/-!
Shallow embedding of the `weather_bites` repository core, checked against its
specification.

Second section: the Temperature Bucketing Engine of `src/weather_bites/app.py`
(the dictionaries `TEMPERATURE_LOCATIONS`, `TEMPERATURE_SNACKS`,
`TEMPERATURE_SEASONAL` and the three lookup functions
`get_locations_by_temperature`, `get_snacks_by_temperature`,
`get_seasonal_snacks_by_temperature`). Temperatures are modelled as rationals;
each Python dictionary keyed by the strings "<30", "31-45", "46-60", "61-75",
"76-85", ">85" becomes a total function on the six-constructor type `Band`.
-/

namespace WeatherBites

/-- The six band keys of the Python dictionaries: "<30", "31-45", "46-60",
"61-75", "76-85", ">85". -/
inductive Band where
  | lt30
  | b31to45
  | b46to60
  | b61to75
  | b76to85
  | gt85
deriving DecidableEq, Repr, Fintype

/-- The `TEMPERATURE_LOCATIONS` dictionary of `src/weather_bites/app.py`. -/
def TEMPERATURE_LOCATIONS : Band → List String
  | .lt30 => ["1369 Coffee House", "Soup Shack"]
  | .b31to45 => ["1369 Coffee House", "Tatte"]
  | .b46to60 => ["Blank Street Coffee", "Pavement Coffeehouse"]
  | .b61to75 => ["Boba Tea and Snow Ice House", "Tiger Sugar"]
  | .b76to85 => ["Levain", "Fomu"]
  | .gt85 => ["JP Licks", "Kyo Matcha"]

/-- The `TEMPERATURE_SNACKS` dictionary of `src/weather_bites/app.py`. -/
def TEMPERATURE_SNACKS : Band → List String
  | .lt30 => ["hot chocolate", "soup"]
  | .b31to45 => ["chocolate croissant", "hot coffee"]
  | .b46to60 => ["almond croissant", "everything cream cheese bagel"]
  | .b61to75 => ["brown sugar bubble tea", "strawberry milk tea"]
  | .b76to85 => ["chocolate-chip cookie", "ice cream cookie sandwich"]
  | .gt85 => ["Cookies \x27n\x27 Cream Sundae", "Strawberry Matcha Latte"]

/-- The `TEMPERATURE_SEASONAL` dictionary of `src/weather_bites/app.py`. -/
def TEMPERATURE_SEASONAL : Band → List String
  | .lt30 => ["peppermint hot chocolate"]
  | .b31to45 => ["peppermint tea"]
  | .b46to60 => ["apple cider donuts"]
  | .b61to75 => ["acai bowl"]
  | .b76to85 => ["lemonade"]
  | .gt85 => ["frozen yogurt"]

/-- `get_locations_by_temperature` of `src/weather_bites/app.py`: the literal
`if temp < 30 / elif 31 <= temp <= 45 / ... / else` chain. -/
def get_locations_by_temperature (temp : ℚ) : List String :=
  if temp < 30 then TEMPERATURE_LOCATIONS .lt30
  else if 31 ≤ temp ∧ temp ≤ 45 then TEMPERATURE_LOCATIONS .b31to45
  else if 46 ≤ temp ∧ temp ≤ 60 then TEMPERATURE_LOCATIONS .b46to60
  else if 61 ≤ temp ∧ temp ≤ 75 then TEMPERATURE_LOCATIONS .b61to75
  else if 76 ≤ temp ∧ temp ≤ 85 then TEMPERATURE_LOCATIONS .b76to85
  else TEMPERATURE_LOCATIONS .gt85

/-- `get_snacks_by_temperature` of `src/weather_bites/app.py`: the same branch
chain over the `TEMPERATURE_SNACKS` dictionary. -/
def get_snacks_by_temperature (temp : ℚ) : List String :=
  if temp < 30 then TEMPERATURE_SNACKS .lt30
  else if 31 ≤ temp ∧ temp ≤ 45 then TEMPERATURE_SNACKS .b31to45
  else if 46 ≤ temp ∧ temp ≤ 60 then TEMPERATURE_SNACKS .b46to60
  else if 61 ≤ temp ∧ temp ≤ 75 then TEMPERATURE_SNACKS .b61to75
  else if 76 ≤ temp ∧ temp ≤ 85 then TEMPERATURE_SNACKS .b76to85
  else TEMPERATURE_SNACKS .gt85

/-- `get_seasonal_snacks_by_temperature` of `src/weather_bites/app.py`: the
same branch chain over the `TEMPERATURE_SEASONAL` dictionary. -/
def get_seasonal_snacks_by_temperature (temp : ℚ) : List String :=
  if temp < 30 then TEMPERATURE_SEASONAL .lt30
  else if 31 ≤ temp ∧ temp ≤ 45 then TEMPERATURE_SEASONAL .b31to45
  else if 46 ≤ temp ∧ temp ≤ 60 then TEMPERATURE_SEASONAL .b46to60
  else if 61 ≤ temp ∧ temp ≤ 75 then TEMPERATURE_SEASONAL .b61to75
  else if 76 ≤ temp ∧ temp ≤ 85 then TEMPERATURE_SEASONAL .b76to85
  else TEMPERATURE_SEASONAL .gt85

/-- The branch selector common to the three lookup functions: which band key a
temperature is routed to by the shared `if`/`elif`/`else` chain. -/
def bandOf (temp : ℚ) : Band :=
  if temp < 30 then .lt30
  else if 31 ≤ temp ∧ temp ≤ 45 then .b31to45
  else if 46 ≤ temp ∧ temp ≤ 60 then .b46to60
  else if 61 ≤ temp ∧ temp ≤ 75 then .b61to75
  else if 76 ≤ temp ∧ temp ≤ 85 then .b76to85
  else .gt85

/-- Band membership exactly as the spec states the six bands:
`< 30`, `31-45`, `46-60`, `61-75`, `76-85`, `> 85` (inclusive ranges). This
follows the specification text, for comparison with `bandOf` from the code. -/
def inBand (t : ℚ) : Band → Prop
  | .lt30 => t < 30
  | .b31to45 => 31 ≤ t ∧ t ≤ 45
  | .b46to60 => 46 ≤ t ∧ t ≤ 60
  | .b61to75 => 61 ≤ t ∧ t ≤ 75
  | .b76to85 => 76 ≤ t ∧ t ≤ 85
  | .gt85 => 85 < t

instance (t : ℚ) (b : Band) : Decidable (inBand t b) := by
  cases b <;> simp only [inBand] <;> infer_instance

lemma locations_eq_table (t : ℚ) :
    get_locations_by_temperature t = TEMPERATURE_LOCATIONS (bandOf t) := by
  unfold get_locations_by_temperature bandOf
  split_ifs <;> rfl

lemma snacks_eq_table (t : ℚ) :
    get_snacks_by_temperature t = TEMPERATURE_SNACKS (bandOf t) := by
  unfold get_snacks_by_temperature bandOf
  split_ifs <;> rfl

lemma seasonal_eq_table (t : ℚ) :
    get_seasonal_snacks_by_temperature t = TEMPERATURE_SEASONAL (bandOf t) := by
  unfold get_seasonal_snacks_by_temperature bandOf
  split_ifs <;> rfl

lemma bandOf_of_inBand {t : ℚ} {b : Band} (h : inBand t b) : bandOf t = b := by
  unfold bandOf
  cases b with
  | lt30 =>
    simp only [inBand] at h
    rw [if_pos h]
  | b31to45 =>
    simp only [inBand] at h
    rw [if_neg (by linarith [h.1]), if_pos h]
  | b46to60 =>
    simp only [inBand] at h
    rw [if_neg (by linarith [h.1]), if_neg (by rintro ⟨-, hb⟩ ; linarith [h.1]),
      if_pos h]
  | b61to75 =>
    simp only [inBand] at h
    rw [if_neg (by linarith [h.1]), if_neg (by rintro ⟨-, hb⟩ ; linarith [h.1]),
      if_neg (by rintro ⟨-, hb⟩ ; linarith [h.1]), if_pos h]
  | b76to85 =>
    simp only [inBand] at h
    rw [if_neg (by linarith [h.1]), if_neg (by rintro ⟨-, hb⟩ ; linarith [h.1]),
      if_neg (by rintro ⟨-, hb⟩ ; linarith [h.1]),
      if_neg (by rintro ⟨-, hb⟩ ; linarith [h.1]), if_pos h]
  | gt85 =>
    simp only [inBand] at h
    rw [if_neg (by linarith), if_neg (by rintro ⟨-, hb⟩ ; linarith),
      if_neg (by rintro ⟨-, hb⟩ ; linarith), if_neg (by rintro ⟨-, hb⟩ ; linarith),
      if_neg (by rintro ⟨-, hb⟩ ; linarith)]

lemma bandOf_of_no_band {t : ℚ} (h : ∀ b, ¬ inBand t b) : bandOf t = .gt85 := by
  unfold bandOf
  rw [if_neg (show ¬ t < 30 from h .lt30),
    if_neg (show ¬ (31 ≤ t ∧ t ≤ 45) from h .b31to45),
    if_neg (show ¬ (46 ≤ t ∧ t ≤ 60) from h .b46to60),
    if_neg (show ¬ (61 ≤ t ∧ t ≤ 75) from h .b61to75),
    if_neg (show ¬ (76 ≤ t ∧ t ≤ 85) from h .b76to85)]

/-!
The Review Record Store of
`src/weather_bites/weather_bites/models/review.py`, which issues raw SQL
against the `ReviewsTable`. The table (per the `Review` model of
`src/weather_bites/weather_bites/models/db.py`) has an autoincrement primary
key `id`, a `name` column with a UNIQUE constraint, and a `deleted` column
defaulting to false; it is modelled as a list of rows in insertion (rowid)
order together with the next id to assign. Each `ValueError` message of the
Python code becomes one constructor of `DbError`; `sqlite3.IntegrityError` on
a duplicate `name` is re-raised by `create_review` as the `duplicateName`
error.
-/

/-- One row of `ReviewsTable`
(`id, name, location, rating, favorite, review, deleted`). -/
structure ReviewRow where
  id : Nat
  name : String
  location : String
  rating : Int
  favorite : Bool
  review : String
  deleted : Bool
deriving DecidableEq, Repr

/-- The persistent state: the rows of `ReviewsTable` in rowid order, plus the
next autoincrement id. -/
structure ReviewsDb where
  rows : List ReviewRow
  nextId : Nat
deriving DecidableEq, Repr

/-- The distinct `ValueError`s raised by the store functions, one constructor
per distinct message shape. `ratingHasBeenDeleted`-style and not-found
messages keep their payloads so that distinguishable messages stay
distinguishable. -/
inductive DbError where
  | invalidRatingCreate (rating : Int)
  | invalidLocationCreate (location : String)
  | duplicateName (name : String)
  | invalidRatingUpdate
  | reviewNotFound (id : Nat)
  | reviewHasBeenDeleted (id : Nat)
  | reviewNameNotFound (reviewName : String)
  | reviewNameHasBeenDeleted (reviewName : String)
deriving DecidableEq, Repr

/-- The location allow-list hard-coded in `create_review`. -/
def VALID_LOCATIONS : List String :=
  ["1369 Coffee House (hot chocolate)", "Soup Shack", "1369 Coffee House",
   "Tatte", "Blank Street Coffee", "Pavement Coffeehouse",
   "Boba Tea and Snow Ice House", "Tiger Sugar", "Levain", "Fomu",
   "JP Licks", "Kyo Matcha"]

/-- `create_review`: validates the rating range and the location allow-list
(the `isinstance(rating, int)` guard is discharged by the `Int` type), then
INSERTs; the UNIQUE constraint on `name` turns a duplicate into the
`duplicateName` error. A fresh row gets `deleted = false` (column default). -/
def create_review (name location : String) (rating : Int) (favorite : Bool)
    (review : String) (db : ReviewsDb) : Except DbError ReviewsDb :=
  if rating < 1 ∨ rating > 5 then .error (.invalidRatingCreate rating)
  else if location ∉ VALID_LOCATIONS then .error (.invalidLocationCreate location)
  else if db.rows.any (fun r => r.name == name) then .error (.duplicateName name)
  else .ok ⟨db.rows ++ [⟨db.nextId, name, location, rating, favorite, review, false⟩],
    db.nextId + 1⟩

/-- `delete_review`: SELECTs the `deleted` flag of the row with the given id
(absent row → not-found, already-deleted row → has-been-deleted), then
UPDATEs the row to `deleted = TRUE`. -/
def delete_review (id : Nat) (db : ReviewsDb) : Except DbError ReviewsDb :=
  match db.rows.find? (fun r => r.id == id) with
  | none => .error (.reviewNotFound id)
  | some r =>
    if r.deleted then .error (.reviewHasBeenDeleted id)
    else .ok ⟨db.rows.map (fun q => if q.id == id then { q with deleted := true } else q),
      db.nextId⟩

/-- `get_favorites`: `SELECT ... FROM ReviewsTable WHERE favorite = TRUE` —
there is no filter on the `deleted` column. -/
def get_favorites (db : ReviewsDb) : List ReviewRow :=
  db.rows.filter (fun r => r.favorite)

/-- `get_review_by_id`: SELECT by id; a present row with `deleted` set raises
the has-been-deleted error, an absent row the not-found error. -/
def get_review_by_id (id : Nat) (db : ReviewsDb) : Except DbError ReviewRow :=
  match db.rows.find? (fun r => r.id == id) with
  | some r => if r.deleted then .error (.reviewHasBeenDeleted id) else .ok r
  | none => .error (.reviewNotFound id)

/-- `get_review_by_name`: despite its name, the query is
`SELECT ... WHERE review = ?` — it matches the review-text column, and
`fetchone` takes the first matching row in rowid order. -/
def get_review_by_name (review_name : String) (db : ReviewsDb) :
    Except DbError ReviewRow :=
  match db.rows.find? (fun r => r.review == review_name) with
  | some r =>
    if r.deleted then .error (.reviewNameHasBeenDeleted review_name) else .ok r
  | none => .error (.reviewNameNotFound review_name)

/-- `update_review`: `UPDATE ReviewsTable SET review = ? WHERE id = ?`; a zero
rowcount (no row with that id, deleted or not) raises not-found. -/
def update_review (id : Nat) (new_review : String) (db : ReviewsDb) :
    Except DbError ReviewsDb :=
  if db.rows.any (fun r => r.id == id) then
    .ok ⟨db.rows.map (fun r => if r.id == id then { r with review := new_review } else r),
      db.nextId⟩
  else .error (.reviewNotFound id)

/-- `update_rating`: validates `1 <= new_rating <= 5` before touching storage,
then UPDATEs by id with the same zero-rowcount check as `update_review`. -/
def update_rating (id : Nat) (new_rating : Int) (db : ReviewsDb) :
    Except DbError ReviewsDb :=
  if ¬ (1 ≤ new_rating ∧ new_rating ≤ 5) then .error .invalidRatingUpdate
  else if db.rows.any (fun r => r.id == id) then
    .ok ⟨db.rows.map (fun r => if r.id == id then { r with rating := new_rating } else r),
      db.nextId⟩
  else .error (.reviewNotFound id)

/-- `update_favorite`: the `isinstance(is_favorite, bool)` guard is discharged
by the `Bool` type; then UPDATE by id with the zero-rowcount check. -/
def update_favorite (id : Nat) (is_favorite : Bool) (db : ReviewsDb) :
    Except DbError ReviewsDb :=
  if db.rows.any (fun r => r.id == id) then
    .ok ⟨db.rows.map (fun r => if r.id == id then { r with favorite := is_favorite } else r),
      db.nextId⟩
  else .error (.reviewNotFound id)

/-- `clear_reviews`: recreates the table, so every row is gone and the
autoincrement restarts. -/
def clear_reviews (_db : ReviewsDb) : ReviewsDb := ⟨[], 1⟩

/-- The empty store, as recreated by `clear_reviews`. -/
def emptyDb : ReviewsDb := ⟨[], 1⟩

/-- A store holding one live review. -/
def sampleLiveDb : ReviewsDb :=
  ⟨[⟨1, "Hot Chocolate", "1369 Coffee House", 5, true, "great", false⟩], 2⟩

/-- The same store after soft-deleting the review. -/
def sampleDeletedDb : ReviewsDb :=
  ⟨[⟨1, "Hot Chocolate", "1369 Coffee House", 5, true, "great", true⟩], 2⟩

lemma any_id_eq_true {db : ReviewsDb} {id : Nat}
    (hex : ∃ r ∈ db.rows, r.id = id) :
    db.rows.any (fun r => r.id == id) = true := by
  obtain ⟨r, hr, hid⟩ := hex
  simp only [List.any_eq_true, beq_iff_eq]
  exact ⟨r, hr, hid⟩

lemma row_update_preserves_id (id : Nat) (f : ReviewRow → ReviewRow)
    (hf : ∀ r, (f r).id = r.id) (r : ReviewRow) :
    ((if r.id == id then f r else r).id == id) = (r.id == id) := by
  split <;> simp [hf]

lemma find?_map_pres (p : ReviewRow → Bool) (f : ReviewRow → ReviewRow)
    (hf : ∀ r, p (f r) = p r) : ∀ l : List ReviewRow,
    (l.map f).find? p = (l.find? p).map f
  | [] => rfl
  | a :: l => by
    by_cases hpa : p a = true
    · rw [List.map_cons, List.find?_cons_of_pos _ (by rw [hf]; exact hpa),
        List.find?_cons_of_pos _ hpa]
      rfl
    · rw [List.map_cons, List.find?_cons_of_neg _ (by rw [hf]; exact hpa),
        List.find?_cons_of_neg _ hpa]
      exact find?_map_pres p f hf l

/-- C1 counterexample: the temperature 30 lies in none of the six bands as the
spec states them (`< 30`, `31-45`, `46-60`, `61-75`, `76-85`, `> 85`), so the
bands do not cover the real line; yet `get_locations_by_temperature` routes 30
to the `>85` band's list — an unrelated band. -/
theorem C1_partition_counterexample :
    (∀ b, ¬ inBand (30 : ℚ) b) ∧
    get_locations_by_temperature 30 = TEMPERATURE_LOCATIONS Band.gt85 := by
  have hno : ∀ b, ¬ inBand (30 : ℚ) b := by
    intro b
    cases b <;> simp only [inBand] <;> norm_num
  exact ⟨hno, by rw [locations_eq_table, bandOf_of_no_band hno]⟩

/-- C1 (amended): `get_locations_by_temperature` always returns exactly the
list of the band selected by the shared branch chain (`bandOf`); the six bands
as stated are pairwise disjoint, and whenever a temperature lies in a stated
band the function returns that band's list; but the bands do not cover the
line: any temperature in the gaps `[30,31)`, `(45,46)`, `(60,61)`, `(75,76)`
lies in no stated band and is routed to the `>85` band's list. -/
theorem C1_bucketing_amended (t : ℚ) :
    get_locations_by_temperature t = TEMPERATURE_LOCATIONS (bandOf t) ∧
    (∀ b b1, inBand t b → inBand t b1 → b = b1) ∧
    (∀ b, inBand t b → bandOf t = b) ∧
    ((∀ b, ¬ inBand t b) → bandOf t = Band.gt85) := by
  refine ⟨locations_eq_table t, ?_, fun b h => bandOf_of_inBand h, bandOf_of_no_band⟩
  intro b b1 hb hb1
  exact (bandOf_of_inBand hb).symm.trans (bandOf_of_inBand hb1)

/-- Witness for C1 (amended), at the concrete temperatures 40 and 30. -/
theorem C1_bucketing_amended_witness :
    bandOf 40 = Band.b31to45 ∧ bandOf 30 = Band.gt85 := by
  constructor
  · exact (C1_bucketing_amended 40).2.2.1 Band.b31to45 (by decide)
  · exact (C1_bucketing_amended 30).2.2.2 (by decide)

/-- C9: the three lookup functions `get_locations_by_temperature`,
`get_snacks_by_temperature` and `get_seasonal_snacks_by_temperature` share the
same branch conditions, so for every temperature they select the same band key
`bandOf t` and merely read different dictionaries at that key. -/
theorem C9_three_functions_same_band (t : ℚ) :
    get_locations_by_temperature t = TEMPERATURE_LOCATIONS (bandOf t) ∧
    get_snacks_by_temperature t = TEMPERATURE_SNACKS (bandOf t) ∧
    get_seasonal_snacks_by_temperature t = TEMPERATURE_SEASONAL (bandOf t) :=
  ⟨locations_eq_table t, snacks_eq_table t, seasonal_eq_table t⟩

/-- C2 counterexample: on a store whose only record is soft-deleted, all three
attribute mutations succeed and overwrite the stored attribute instead of
failing with a not-found error. -/
theorem C2_mutation_counterexample :
    update_review 1 "changed" sampleDeletedDb =
      .ok ⟨[⟨1, "Hot Chocolate", "1369 Coffee House", 5, true, "changed", true⟩], 2⟩ ∧
    update_rating 1 2 sampleDeletedDb =
      .ok ⟨[⟨1, "Hot Chocolate", "1369 Coffee House", 2, true, "great", true⟩], 2⟩ ∧
    update_favorite 1 false sampleDeletedDb =
      .ok ⟨[⟨1, "Hot Chocolate", "1369 Coffee House", 5, false, "great", true⟩], 2⟩ :=
  ⟨rfl, rfl, rfl⟩

/-- C2 (amended): the three attribute mutations consult only row existence by
id (the SQL UPDATE rowcount), never the `deleted` flag: applied to the id of a
soft-deleted record they succeed and overwrite the attribute; not-found is
raised only when no row with the id exists at all. -/
theorem C2_mutations_ignore_deleted (id : Nat) (txt : String) (nr : Int)
    (fav : Bool) (db : ReviewsDb)
    (hex : ∃ r ∈ db.rows, r.id = id ∧ r.deleted = true)
    (hnr : 1 ≤ nr ∧ nr ≤ 5) :
    update_review id txt db =
      .ok ⟨db.rows.map (fun r => if r.id == id then { r with review := txt } else r),
        db.nextId⟩ ∧
    update_rating id nr db =
      .ok ⟨db.rows.map (fun r => if r.id == id then { r with rating := nr } else r),
        db.nextId⟩ ∧
    update_favorite id fav db =
      .ok ⟨db.rows.map (fun r => if r.id == id then { r with favorite := fav } else r),
        db.nextId⟩ := by
  have hany : db.rows.any (fun r => r.id == id) = true := by
    obtain ⟨r, hr, hid, -⟩ := hex
    exact any_id_eq_true ⟨r, hr, hid⟩
  refine ⟨?_, ?_, ?_⟩
  · rw [update_review, if_pos hany]
  · rw [update_rating, if_neg (not_not_intro hnr), if_pos hany]
  · rw [update_favorite, if_pos hany]

/-- Witness for C2 (amended), on the concrete soft-deleted store. -/
theorem C2_mutations_ignore_deleted_witness :
    update_rating 1 2 sampleDeletedDb =
      .ok ⟨[⟨1, "Hot Chocolate", "1369 Coffee House", 2, true, "great", true⟩], 2⟩ :=
  (C2_mutations_ignore_deleted 1 "changed" 2 false sampleDeletedDb
    (by decide) (by decide)).2.1

/-- C3 counterexample: a soft-deleted record whose `favorite` flag is true is
returned by `get_favorites` (the query filters only on `favorite`). -/
theorem C3_favorites_counterexample :
    (⟨1, "Hot Chocolate", "1369 Coffee House", 5, true, "great", true⟩ : ReviewRow)
      ∈ get_favorites sampleDeletedDb ∧
    (⟨1, "Hot Chocolate", "1369 Coffee House", 5, true, "great", true⟩ : ReviewRow).deleted
      = true := by
  constructor
  · simp [get_favorites, sampleDeletedDb]
  · rfl

/-- C3 (amended): `get_favorites` returns exactly the records whose `favorite`
flag is true, in creation (rowid) order, regardless of the `deleted` flag. -/
theorem C3_favorites_amended (db : ReviewsDb) (r : ReviewRow) :
    r ∈ get_favorites db ↔ r ∈ db.rows ∧ r.favorite = true := by
  simp [get_favorites, List.mem_filter]

/-- C4 counterexample: after soft-deleting the only record,
`get_review_by_id` fails with the has-been-deleted error — not the not-found
error an absent id receives — so a deleted record is distinguishable from an
absent one. -/
theorem C4_deleted_distinguishable_counterexample :
    delete_review 1 sampleLiveDb = .ok sampleDeletedDb ∧
    get_review_by_id 1 sampleDeletedDb = .error (.reviewHasBeenDeleted 1) ∧
    get_review_by_id 2 sampleDeletedDb = .error (.reviewNotFound 2) ∧
    DbError.reviewHasBeenDeleted 1 ≠ DbError.reviewNotFound 1 :=
  ⟨rfl, rfl, rfl, by decide⟩

/-- C4 (amended): after a successful `delete_review id`, `get_review_by_id id`
fails with the has-been-deleted error (the same error a second delete gets),
which differs from the not-found error; a second `delete_review id` fails with
has-been-deleted; deleting an id that matches no row fails with not-found. -/
theorem C4_delete_lifecycle_amended (id : Nat) (db db1 : ReviewsDb)
    (h : delete_review id db = .ok db1) :
    get_review_by_id id db1 = .error (.reviewHasBeenDeleted id) ∧
    delete_review id db1 = .error (.reviewHasBeenDeleted id) ∧
    ∀ db2 : ReviewsDb, (∀ r ∈ db2.rows, r.id ≠ id) →
      delete_review id db2 = .error (.reviewNotFound id) := by
  have hf : ∀ r : ReviewRow,
      ((if r.id == id then { r with deleted := true } else r).id == id)
        = (r.id == id) :=
    row_update_preserves_id id (fun r => { r with deleted := true }) (fun _ => rfl)
  rw [delete_review] at h
  cases hfind : db.rows.find? (fun r => r.id == id) with
  | none => rw [hfind] at h; exact absurd h (by simp)
  | some r =>
    rw [hfind] at h
    dsimp only at h
    split_ifs at h with hdel
    · have hdb1 : db1 =
          ⟨db.rows.map (fun q => if q.id == id then { q with deleted := true } else q),
            db.nextId⟩ := by
        injection h with h1
        exact h1.symm
      have hfind1 : db1.rows.find? (fun q => q.id == id) =
          some { r with deleted := true } := by
        rw [hdb1]
        rw [show (⟨db.rows.map (fun q => if q.id == id then { q with deleted := true } else q),
            db.nextId⟩ : ReviewsDb).rows =
          db.rows.map (fun q => if q.id == id then { q with deleted := true } else q) from rfl]
        rw [find?_map_pres _ _ hf, hfind]
        have hr : (r.id == id) = true := List.find?_some (p := fun q : ReviewRow => q.id == id) hfind
        simp only [Option.map_some']
        rw [if_pos hr]
      refine ⟨?_, ?_, ?_⟩
      · rw [get_review_by_id, hfind1]
        rfl
      · rw [delete_review, hfind1]
        rfl
      · intro db2 h2
        rw [delete_review, List.find?_eq_none.mpr ?hnone]
        case hnone =>
          intro a ha
          simpa using h2 a ha

/-- Witness for C4 (amended), on the concrete one-record store. -/
theorem C4_delete_lifecycle_amended_witness :
    get_review_by_id 1 sampleDeletedDb = .error (.reviewHasBeenDeleted 1) ∧
    delete_review 1 sampleDeletedDb = .error (.reviewHasBeenDeleted 1) ∧
    delete_review 1 emptyDb = .error (.reviewNotFound 1) := by
  have h := C4_delete_lifecycle_amended 1 sampleLiveDb sampleDeletedDb rfl
  exact ⟨h.1, h.2.1, h.2.2 emptyDb (by decide)⟩

/-- C5: `create_review` rejects an out-of-range rating and a location outside
the allow-list before touching storage; on valid input it appends a fresh row
with `deleted = false`; and a duplicate `name` (live or soft-deleted) hits the
UNIQUE constraint and fails with the duplicate-name error, leaving the store
with only the first record. -/
theorem C5_create_validation (name location : String) (rating : Int)
    (favorite : Bool) (txt : String) (db : ReviewsDb) :
    ((rating < 1 ∨ rating > 5) →
      create_review name location rating favorite txt db =
        .error (.invalidRatingCreate rating)) ∧
    (1 ≤ rating → rating ≤ 5 → location ∉ VALID_LOCATIONS →
      create_review name location rating favorite txt db =
        .error (.invalidLocationCreate location)) ∧
    (1 ≤ rating → rating ≤ 5 → location ∈ VALID_LOCATIONS →
      (∀ r ∈ db.rows, r.name ≠ name) →
      create_review name location rating favorite txt db =
        .ok ⟨db.rows ++ [⟨db.nextId, name, location, rating, favorite, txt, false⟩],
          db.nextId + 1⟩) ∧
    (1 ≤ rating → rating ≤ 5 → location ∈ VALID_LOCATIONS →
      (∃ r ∈ db.rows, r.name = name) →
      create_review name location rating favorite txt db =
        .error (.duplicateName name)) := by
  refine ⟨?_, ?_, ?_, ?_⟩
  · intro h
    rw [create_review, if_pos h]
  · intro h1 h2 hloc
    rw [create_review, if_neg (by omega), if_pos hloc]
  · intro h1 h2 hloc hfresh
    rw [create_review, if_neg (by omega), if_neg (not_not_intro hloc), if_neg ?hno]
    case hno =>
      simp only [List.any_eq_true, beq_iff_eq, not_exists]
      rintro r ⟨hr, he⟩
      exact hfresh r hr he
  · intro h1 h2 hloc hdup
    obtain ⟨r, hr, he⟩ := hdup
    rw [create_review, if_neg (by omega), if_neg (not_not_intro hloc), if_pos ?hyes]
    case hyes =>
      simp only [List.any_eq_true, beq_iff_eq]
      exact ⟨r, hr, he⟩

/-- Witness for C5, exercising all four cases on concrete stores. -/
theorem C5_create_validation_witness :
    create_review "Hot Chocolate" "1369 Coffee House" 6 true "great" emptyDb =
      .error (.invalidRatingCreate 6) ∧
    create_review "Hot Chocolate" "nowhere" 5 true "great" emptyDb =
      .error (.invalidLocationCreate "nowhere") ∧
    create_review "Hot Chocolate" "1369 Coffee House" 5 true "great" emptyDb =
      .ok sampleLiveDb ∧
    create_review "Hot Chocolate" "Tatte" 4 false "again" sampleDeletedDb =
      .error (.duplicateName "Hot Chocolate") := by
  refine ⟨?_, ?_, ?_, ?_⟩
  · exact (C5_create_validation "Hot Chocolate" "1369 Coffee House" 6 true "great"
      emptyDb).1 (by decide)
  · exact (C5_create_validation "Hot Chocolate" "nowhere" 5 true "great"
      emptyDb).2.1 (by decide) (by decide) (by decide)
  · exact (C5_create_validation "Hot Chocolate" "1369 Coffee House" 5 true "great"
      emptyDb).2.2.1 (by decide) (by decide) (by decide) (by decide)
  · exact (C5_create_validation "Hot Chocolate" "Tatte" 4 false "again"
      sampleDeletedDb).2.2.2 (by decide) (by decide) (by decide) (by decide)

/-- The write operations of the Review Record Store, for stating store-wide
invariants over every mutation path. -/
inductive StoreOp where
  | createOp (name location : String) (rating : Int) (favorite : Bool) (review : String)
  | deleteOp (id : Nat)
  | updateReviewOp (id : Nat) (new_review : String)
  | updateRatingOp (id : Nat) (new_rating : Int)
  | updateFavoriteOp (id : Nat) (is_favorite : Bool)
  | clearOp
deriving DecidableEq, Repr

/-- Dispatch of a write operation to the corresponding store function. -/
def applyOp : StoreOp → ReviewsDb → Except DbError ReviewsDb
  | .createOp n l ra f re, db => create_review n l ra f re db
  | .deleteOp id, db => delete_review id db
  | .updateReviewOp id t, db => update_review id t db
  | .updateRatingOp id ra, db => update_rating id ra db
  | .updateFavoriteOp id b, db => update_favorite id b db
  | .clearOp, db => .ok (clear_reviews db)

/-- The invariant of C6: every persisted record's rating lies in 1..5. -/
def RatingInv (db : ReviewsDb) : Prop :=
  ∀ r ∈ db.rows, 1 ≤ r.rating ∧ r.rating ≤ 5

/-- C6: the rating range is checked on create and re-checked on every rating
update, and no other write touches a rating, so `1 ≤ rating ≤ 5` is preserved
by every store operation; `update_rating id 0` and `update_rating id 6` fail
with the invalid-rating error on any store, before touching storage. -/
theorem C6_rating_invariant :
    (∀ op db db1, RatingInv db → applyOp op db = .ok db1 → RatingInv db1) ∧
    (∀ id db, update_rating id 0 db = .error .invalidRatingUpdate) ∧
    (∀ id db, update_rating id 6 db = .error .invalidRatingUpdate) := by
  refine ⟨?_, ?_, ?_⟩
  · intro op db db1 hinv h
    cases op with
    | createOp n l ra f re =>
      rw [applyOp, create_review] at h
      split_ifs at h with h1 h2 h3
      injection h with h
      subst h
      intro r hr
      rw [List.mem_append] at hr
      rcases hr with hr | hr
      · exact hinv r hr
      · rw [List.mem_singleton] at hr
        subst hr
        dsimp only
        constructor <;> omega
    | deleteOp id =>
      rw [applyOp, delete_review] at h
      cases hfind : db.rows.find? (fun r => r.id == id) with
      | none => rw [hfind] at h; exact absurd h (by simp)
      | some r =>
        rw [hfind] at h
        dsimp only at h
        split_ifs at h
        injection h with h
        subst h
        intro q hq
        rw [List.mem_map] at hq
        obtain ⟨p, hp, rfl⟩ := hq
        have hrat : (if (p.id == id) = true then { p with deleted := true } else p).rating
            = p.rating := by
          split <;> rfl
        rw [hrat]
        exact hinv p hp
    | updateReviewOp id t =>
      rw [applyOp, update_review] at h
      split_ifs at h
      injection h with h
      subst h
      intro q hq
      rw [List.mem_map] at hq
      obtain ⟨p, hp, rfl⟩ := hq
      have hrat : (if (p.id == id) = true then { p with review := t } else p).rating
          = p.rating := by
        split <;> rfl
      rw [hrat]
      exact hinv p hp
    | updateRatingOp id ra =>
      rw [applyOp, update_rating] at h
      split_ifs at h with h1 h2
      injection h with h
      subst h
      intro q hq
      rw [List.mem_map] at hq
      obtain ⟨p, hp, rfl⟩ := hq
      split
      · exact h1
      · exact hinv p hp
    | updateFavoriteOp id b =>
      rw [applyOp, update_favorite] at h
      split_ifs at h
      injection h with h
      subst h
      intro q hq
      rw [List.mem_map] at hq
      obtain ⟨p, hp, rfl⟩ := hq
      have hrat : (if (p.id == id) = true then { p with favorite := b } else p).rating
          = p.rating := by
        split <;> rfl
      rw [hrat]
      exact hinv p hp
    | clearOp =>
      rw [applyOp] at h
      injection h with h
      subst h
      intro q hq
      exact absurd hq (by simp [clear_reviews])
  · intro id db
    rw [update_rating, if_pos (by omega)]
  · intro id db
    rw [update_rating, if_pos (by omega)]

/-- Witness for C6, on a concrete create into the empty store followed by a
rejected out-of-range update. -/
theorem C6_rating_invariant_witness :
    RatingInv sampleLiveDb ∧
    update_rating 1 0 sampleLiveDb = .error .invalidRatingUpdate ∧
    update_rating 1 6 sampleLiveDb = .error .invalidRatingUpdate :=
  ⟨C6_rating_invariant.1
      (StoreOp.createOp "Hot Chocolate" "1369 Coffee House" 5 true "great")
      emptyDb sampleLiveDb (by simp [RatingInv, emptyDb]) rfl,
   C6_rating_invariant.2.1 1 sampleLiveDb,
   C6_rating_invariant.2.2 1 sampleLiveDb⟩

/-!
The Recommendation Composer: the route handlers of
`src/weather_bites/app.py` that combine one `fetch_weather` call with the
Bucketing Engine. `fetch_weather` (one HTTP request returning either a
temperature or `None`) is modelled as consuming the head of a stream of
pending responses from the external weather service, so "fetched exactly
once" is visible as exactly one element consumed. The missing/empty `city`
query parameter (`request.args.get` gives `None`; Python `not city` is true
for both `None` and `""`) is modelled as an `Option String` argument.
-/

/-- One call to `fetch_weather`: consume the next response of the external
weather service (a temperature on HTTP 200, otherwise no reading). -/
def fetch_weather (svc : List (Option ℚ)) : Option ℚ × List (Option ℚ) :=
  match svc with
  | [] => (none, [])
  | r :: rest => (r, rest)

/-- `random.choice(xs)`: the element at a random index; the randomness source
is modelled by the draw `k`, reduced modulo the list length. -/
def random_choice (xs : List String) (k : Nat) : String :=
  xs.getD (k % xs.length) ""

/-- The three response shapes a list-returning route can produce: the 400
city-required error, the 200 payload `{temperature, <list>}`, or the 500
could-not-fetch-weather error. -/
inductive WeatherResp where
  | cityRequired
  | okPayload (temperature : ℚ) (items : List String)
  | weatherUnavailable
deriving DecidableEq, Repr

/-- The response shapes of the `/get-snack-pairing` route:
`{temperature, snack, drink}` on success. -/
inductive PairingResp where
  | cityRequired
  | okPairing (temperature : ℚ) (snack : String) (drink : String)
  | weatherUnavailable
deriving DecidableEq, Repr

/-- The `/get-snack-location` handler `get_snack_location`. -/
def get_snack_location (city : Option String) (svc : List (Option ℚ)) :
    WeatherResp × List (Option ℚ) :=
  match city with
  | none => (.cityRequired, svc)
  | some c =>
    if c = "" then (.cityRequired, svc)
    else
      match fetch_weather svc with
      | (some t, rest) => (.okPayload t (get_locations_by_temperature t), rest)
      | (none, rest) => (.weatherUnavailable, rest)

/-- The `/get-snack-recommendation` handler `get_snack_recommendation`. -/
def get_snack_recommendation (city : Option String) (svc : List (Option ℚ)) :
    WeatherResp × List (Option ℚ) :=
  match city with
  | none => (.cityRequired, svc)
  | some c =>
    if c = "" then (.cityRequired, svc)
    else
      match fetch_weather svc with
      | (some t, rest) => (.okPayload t (get_snacks_by_temperature t), rest)
      | (none, rest) => (.weatherUnavailable, rest)

/-- The seasonal handler `get_seasonal_snack_recommendation`. -/
def get_seasonal_snack_recommendation (city : Option String)
    (svc : List (Option ℚ)) : WeatherResp × List (Option ℚ) :=
  match city with
  | none => (.cityRequired, svc)
  | some c =>
    if c = "" then (.cityRequired, svc)
    else
      match fetch_weather svc with
      | (some t, rest) => (.okPayload t (get_seasonal_snacks_by_temperature t), rest)
      | (none, rest) => (.weatherUnavailable, rest)

/-- The `/get-snack-pairing` handler `get_snack_pairing`: one fetch, a random
snack from the band's snack list, and the first entry of the band's seasonal
list as the drink. -/
def get_snack_pairing (city : Option String) (svc : List (Option ℚ)) (k : Nat) :
    PairingResp × List (Option ℚ) :=
  match city with
  | none => (.cityRequired, svc)
  | some c =>
    if c = "" then (.cityRequired, svc)
    else
      match fetch_weather svc with
      | (some t, rest) =>
        (.okPairing t (random_choice (get_snacks_by_temperature t) k)
          ((get_seasonal_snacks_by_temperature t).getD 0 ""), rest)
      | (none, rest) => (.weatherUnavailable, rest)

lemma random_choice_mem_pair (a b : String) (k : Nat) :
    random_choice [a, b] k ∈ [a, b] := by
  unfold random_choice
  have h2 : k % 2 = 0 ∨ k % 2 = 1 := by omega
  rcases h2 with h | h <;> simp [List.getD, h]

lemma random_choice_surj_pair (a b : String) :
    ∀ x ∈ [a, b], ∃ k, random_choice [a, b] k = x := by
  intro x hx
  rcases List.mem_pair.mp hx with rfl | rfl
  · exact ⟨0, rfl⟩
  · exact ⟨1, rfl⟩

lemma snacks_table_pair (b : Band) : ∃ x y, TEMPERATURE_SNACKS b = [x, y] := by
  cases b <;> exact ⟨_, _, rfl⟩

lemma seasonal_table_single (b : Band) :
    TEMPERATURE_SEASONAL b = [(TEMPERATURE_SEASONAL b).getD 0 ""] := by
  cases b <;> rfl

/-- C7: on a successful pairing request the drink is always the single fixed
seasonal entry of the fetched temperature's band, the snack is always drawn
from that same band's snack list (and every element of the list is reachable
by some draw), and exactly one weather response is consumed. -/
theorem C7_pairing (c : String) (t : ℚ) (rest : List (Option ℚ)) (k : Nat)
    (hc : c ≠ "") :
    ∃ snack drink,
      get_snack_pairing (some c) (some t :: rest) k = (.okPairing t snack drink, rest) ∧
      snack ∈ TEMPERATURE_SNACKS (bandOf t) ∧
      TEMPERATURE_SEASONAL (bandOf t) = [drink] ∧
      ∀ x ∈ TEMPERATURE_SNACKS (bandOf t), ∃ j,
        random_choice (TEMPERATURE_SNACKS (bandOf t)) j = x := by
  refine ⟨random_choice (get_snacks_by_temperature t) k,
    (get_seasonal_snacks_by_temperature t).getD 0 "", ?_, ?_, ?_, ?_⟩
  · rw [get_snack_pairing, if_neg hc]
    rfl
  · rw [snacks_eq_table]
    obtain ⟨x, y, hxy⟩ := snacks_table_pair (bandOf t)
    rw [hxy]
    exact random_choice_mem_pair x y k
  · rw [seasonal_eq_table]
    exact seasonal_table_single (bandOf t)
  · obtain ⟨x, y, hxy⟩ := snacks_table_pair (bandOf t)
    rw [hxy]
    exact random_choice_surj_pair x y

/-- Witness for C7, at the concrete city "Boston" and temperature 40. -/
theorem C7_pairing_witness :
    ∃ snack drink,
      get_snack_pairing (some "Boston") [some 40] 0 = (.okPairing 40 snack drink, []) ∧
      snack ∈ TEMPERATURE_SNACKS (bandOf 40) ∧
      TEMPERATURE_SEASONAL (bandOf 40) = [drink] ∧
      ∀ x ∈ TEMPERATURE_SNACKS (bandOf 40), ∃ j,
        random_choice (TEMPERATURE_SNACKS (bandOf 40)) j = x :=
  C7_pairing "Boston" 40 [] 0 (by decide)

/-- C8: each Composer route rejects a missing or empty `city` with the 400
city-required error while consuming no weather response, and when the weather
collaborator yields no reading it returns the 500 weather-unavailable error
rather than any band payload. -/
theorem C8_city_and_unavailable (c : String) (svc rest : List (Option ℚ))
    (k : Nat) (hc : c ≠ "") :
    get_snack_location none svc = (.cityRequired, svc) ∧
    get_snack_location (some "") svc = (.cityRequired, svc) ∧
    get_snack_recommendation none svc = (.cityRequired, svc) ∧
    get_snack_recommendation (some "") svc = (.cityRequired, svc) ∧
    get_seasonal_snack_recommendation none svc = (.cityRequired, svc) ∧
    get_seasonal_snack_recommendation (some "") svc = (.cityRequired, svc) ∧
    get_snack_pairing none svc k = (.cityRequired, svc) ∧
    get_snack_pairing (some "") svc k = (.cityRequired, svc) ∧
    get_snack_location (some c) (none :: rest) = (.weatherUnavailable, rest) ∧
    get_snack_recommendation (some c) (none :: rest) = (.weatherUnavailable, rest) ∧
    get_seasonal_snack_recommendation (some c) (none :: rest)
      = (.weatherUnavailable, rest) ∧
    get_snack_pairing (some c) (none :: rest) k = (.weatherUnavailable, rest) := by
  refine ⟨rfl, rfl, rfl, rfl, rfl, rfl, rfl, rfl, ?_, ?_, ?_, ?_⟩
  · rw [get_snack_location, if_neg hc]
    rfl
  · rw [get_snack_recommendation, if_neg hc]
    rfl
  · rw [get_seasonal_snack_recommendation, if_neg hc]
    rfl
  · rw [get_snack_pairing, if_neg hc]
    rfl

/-- Witness for C8, at the concrete city "Boston". -/
theorem C8_city_and_unavailable_witness :
    get_snack_location (some "Boston") [none] = (.weatherUnavailable, []) :=
  (C8_city_and_unavailable "Boston" [] [] 0 (by decide)).2.2.2.2.2.2.2.2.1

/-- A store in which two records share the review text "x"; the first (in
rowid order) is soft-deleted, the second is live. Reachable by two creates
with distinct names followed by one delete. -/
def dupReviewTextDb : ReviewsDb :=
  ⟨[⟨1, "A", "Tatte", 5, false, "x", true⟩,
    ⟨2, "B", "Tatte", 4, false, "x", false⟩], 3⟩

/-- C10 counterexample: a live record with review text "x" exists, yet
`get_review_by_name "x"` fails, because `fetchone` takes the first matching
row — here the soft-deleted one — so the claimed biconditional ("returns a
record exactly when some live record's review text equals s") is false. -/
theorem C10_first_match_counterexample :
    (∃ r ∈ dupReviewTextDb.rows, r.review = "x" ∧ r.deleted = false) ∧
    get_review_by_name "x" dupReviewTextDb =
      .error (.reviewNameHasBeenDeleted "x") := by
  constructor
  · exact ⟨⟨2, "B", "Tatte", 4, false, "x", false⟩, by decide, rfl, rfl⟩
  · rfl

/-- C10 (amended): `get_review_by_name` matches against the stored review-text
field, not the name field. A returned record always has review text equal to
the argument and is live; when no record's review text equals the argument the
call fails with not-found (so a lookup by a record's name fails unless that
string equals some review text); and when a matching record exists and every
matching record is live, the call succeeds — but a soft-deleted first match
makes it fail even if a later live match exists. -/
theorem C10_review_text_amended (s : String) (db : ReviewsDb) :
    ((∀ r ∈ db.rows, r.review ≠ s) →
      get_review_by_name s db = .error (.reviewNameNotFound s)) ∧
    (∀ r, get_review_by_name s db = .ok r →
      r ∈ db.rows ∧ r.review = s ∧ r.deleted = false) ∧
    ((∃ r ∈ db.rows, r.review = s ∧ r.deleted = false) →
      (∀ r ∈ db.rows, r.review = s → r.deleted = false) →
      ∃ r, get_review_by_name s db = .ok r ∧ r.review = s) := by
  refine ⟨?_, ?_, ?_⟩
  · intro hnone
    rw [get_review_by_name, List.find?_eq_none.mpr ?hn]
    case hn =>
      intro a ha
      simpa using hnone a ha
  · intro r h
    rw [get_review_by_name] at h
    cases hfind : db.rows.find? (fun q => q.review == s) with
    | none => rw [hfind] at h; exact absurd h (by simp)
    | some q =>
      rw [hfind] at h
      dsimp only at h
      split_ifs at h with hdel
      injection h with h
      subst h
      refine ⟨List.mem_of_find?_eq_some hfind, ?_, ?_⟩
      · simpa using List.find?_some (p := fun q : ReviewRow => q.review == s) hfind
      · simpa using hdel
  · rintro ⟨r0, hr0, hrev0, -⟩ hall
    cases hfind : db.rows.find? (fun q => q.review == s) with
    | none =>
      exact absurd (show (r0.review == s) = true by simp [hrev0])
        (List.find?_eq_none.mp hfind r0 hr0)
    | some q =>
      have hq : q.review = s := by
        simpa using List.find?_some (p := fun p : ReviewRow => p.review == s) hfind
      have hmem := List.mem_of_find?_eq_some hfind
      have hlive := hall q hmem hq
      refine ⟨q, ?_, hq⟩
      rw [get_review_by_name, hfind]
      dsimp only
      rw [if_neg (by simp [hlive])]

/-- Witness for C10 (amended), on the concrete one-record store. -/
theorem C10_review_text_amended_witness :
    get_review_by_name "nope" sampleLiveDb = .error (.reviewNameNotFound "nope") ∧
    (⟨1, "Hot Chocolate", "1369 Coffee House", 5, true, "great", false⟩ : ReviewRow)
      ∈ sampleLiveDb.rows ∧
    ∃ r, get_review_by_name "great" sampleLiveDb = .ok r ∧ r.review = "great" := by
  refine ⟨?_, ?_, ?_⟩
  · exact (C10_review_text_amended "nope" sampleLiveDb).1 (by decide)
  · exact ((C10_review_text_amended "great" sampleLiveDb).2.1
      ⟨1, "Hot Chocolate", "1369 Coffee House", 5, true, "great", false⟩ rfl).1
  · exact (C10_review_text_amended "great" sampleLiveDb).2.2 (by decide) (by decide)

end WeatherBites
